import Mathlib

/-!
Shallow embedding of `src/ccd_xsd_validator.py` (CCD/CDA XML Schema
Validator).  The logic of the program itself — building validation result records,
directory traversal policy, report rendering, exit codes — is embedded as
executable Lean definitions.  The external collaborators (the lxml parser,
the compiled XML schema engine, the filesystem) are modelled as explicit
outcome parameters, mirroring what the source observes of them.
-/

namespace CCD

/-- The closed set of error kinds surfaced as the `type` field of an error
record (source lines 64, 77, 87, 92). -/
inductive ErrType
  | xmlSyntaxError
  | schemaValidationError
  | fileNotFound
  | unexpectedError
deriving DecidableEq, Repr

/-- The string the source stores in the `type` key for each kind. -/
def ErrType.name : ErrType → String
  | .xmlSyntaxError => "XML_SYNTAX_ERROR"
  | .schemaValidationError => "SCHEMA_VALIDATION_ERROR"
  | .fileNotFound => "FILE_NOT_FOUND"
  | .unexpectedError => "UNEXPECTED_ERROR"

/-- One error record, as the dicts appended to `result[errors]`.
Python dicts have varying key presence, captured with `Option`:
`none` means the key is absent from the dict.  The `line` key, when present,
can itself hold Python `None` (source line 66: `e.lineno if hasattr(e,
lineno) else None`), hence `Option (Option Nat)`: `some none` is a present
`line` key holding `None`. -/
structure ErrorRecord where
  type : ErrType
  message : String
  line : Option (Option Nat)
  column : Option Nat
  domain : Option String
  level : Option String
deriving DecidableEq, Repr

/-- The result dict built by `validate_file` (source lines 48–54). -/
structure ValidationResult where
  file : String
  valid : Bool
  well_formed : Bool
  errors : List ErrorRecord
  timestamp : String
deriving DecidableEq, Repr

/-- One entry of the `error_log` of the schema engine as the source reads it
(source lines 75–83): `message`, `line`, `column`, `domain_name`,
`level_name`.  in lxml, `line` and `column` are plain ints. -/
structure SchemaLogEntry where
  message : String
  line : Nat
  column : Nat
  domain_name : String
  level_name : String
deriving DecidableEq, Repr

/-- What the environment (filesystem + lxml parser + schema engine) does for
one call of `validate_file` on one path.  Exactly the cases the source
distinguishes: `open` raising `FileNotFoundError` (line 85); `etree.parse`
raising `XMLSyntaxError` with an optional line number (lines 62–67);
a successful parse followed by `schema.validate` returning True (line 71)
or False with a drained `error_log` (lines 73–83); any other exception
(line 90). -/
inductive FileOutcome
  | fileNotFound
  | syntaxError (message : String) (lineno : Option Nat)
  | parsedValid
  | parsedInvalid (log : List SchemaLogEntry)
  | unexpected (message : String)
deriving DecidableEq, Repr

/-- Conversion of one schema-engine diagnostic into an error record
(source lines 76–83). -/
def schemaErrorRecord (e : SchemaLogEntry) : ErrorRecord :=
  { type := .schemaValidationError
    message := e.message
    line := some (some e.line)
    column := some e.column
    domain := some e.domain_name
    level := some e.level_name }

/-- The error record appended for a missing file (source lines 86–89). -/
def fileNotFoundRecord (ccd_path : String) : ErrorRecord :=
  { type := .fileNotFound
    message := "File not found: " ++ ccd_path
    line := none
    column := none
    domain := none
    level := none }

/-- The error record appended for any other exception (source lines 91–94). -/
def unexpectedErrorRecord (msg : String) : ErrorRecord :=
  { type := .unexpectedError
    message := msg
    line := none
    column := none
    domain := none
    level := none }

/-- The error record appended on an XML syntax error (source lines 63–67). -/
def syntaxErrorRecord (msg : String) (lineno : Option Nat) : ErrorRecord :=
  { type := .xmlSyntaxError
    message := msg
    line := some lineno
    column := none
    domain := none
    level := none }

/-- `CCDValidator.validate_file` (source lines 38–96).  The result starts as
`{file, valid: False, well_formed: False, errors: [], timestamp}` and is
updated according to the outcome of the environment; in every case a complete
result is returned, never an exception raised. -/
def validate_file (ccd_path : String) (timestamp : String)
    (outcome : FileOutcome) : ValidationResult :=
  let result : ValidationResult :=
    { file := ccd_path
      valid := false
      well_formed := false
      errors := []
      timestamp := timestamp }
  match outcome with
  | .fileNotFound =>
      { result with errors := [fileNotFoundRecord ccd_path] }
  | .syntaxError msg lineno =>
      { result with errors := [syntaxErrorRecord msg lineno] }
  | .parsedValid =>
      { result with well_formed := true, valid := true }
  | .parsedInvalid log =>
      { result with well_formed := true, errors := log.map schemaErrorRecord }
  | .unexpected msg =>
      { result with errors := [unexpectedErrorRecord msg] }

/-- A well-behaved schema engine: when `validate` reports failure its drained
`error_log` is non-empty (lxml always logs at least one diagnostic for a
failed validation). -/
def envOK (outcome : FileOutcome) : Prop :=
  ∀ log, outcome = FileOutcome.parsedInvalid log → log ≠ []

/-! ## Directory traversal (source lines 98–135) -/

/-- The lowercase extension baked into both glob patterns
(source line 113: `pattern = **/*.xml if recursive else *.xml`). -/
def xmlExt : String := ".xml"

/-- A file in the searched directory tree: `relDirs` is the chain of
subdirectory names from the searched directory down to the parent of the file
(`[]` for a file directly under the searched directory), `name` the file
name. -/
structure FSFile where
  relDirs : List String
  name : String
deriving DecidableEq, Repr

/-- Character-level test that a file name ends in the literal `.xml`
(the semantics of matching the glob component `*.xml`). -/
def nameEndsWithXml (name : String) : Bool :=
  List.isSuffixOf xmlExt.data name.data

/-- Whether `Path.glob` with the pattern chosen on source line 113 selects
this entry: `*.xml` matches names ending in the literal lowercase `.xml`
directly under the directory; `**/*.xml` matches such names at any depth
(`**` also matches zero directories). Globbing is case-sensitive. -/
def globMatches (recursive : Bool) (f : FSFile) : Bool :=
  (recursive || f.relDirs.isEmpty) && nameEndsWithXml f.name

/-- The files `list(directory.glob(pattern))` yields (source line 114),
restricted to the directory listing `files`, kept in listing order. -/
def glob_xml (files : List FSFile) (recursive : Bool) : List FSFile :=
  files.filter (globMatches recursive)

/-- Path separator used to render a relative path for `validate_file`. -/
def pathSep : String := "/"

/-- The path string passed to `validate_file` for an enumerated file. -/
def pathString (f : FSFile) : String :=
  String.intercalate pathSep (f.relDirs ++ [f.name])

/-- `CCDValidator.validate_directory` (source lines 98–135): glob the
candidate files, run `validate_file` on each in listing order, collect the
results.  `env` gives the outcome of the environment for each file. -/
def validate_directory (files : List FSFile) (recursive : Bool)
    (env : FSFile → FileOutcome) (ts : String) : List ValidationResult :=
  (glob_xml files recursive).map (fun f => validate_file (pathString f) ts (env f))

/-! ## Exit codes (source lines 27–36 and 313–326) -/

/-- Whether `load_schema` succeeds in parsing and compiling the schema
(source lines 27–36). -/
inductive SchemaLoadOutcome
  | ok
  | failure (message : String)
deriving DecidableEq, Repr

/-- The process exit status of `main`: `load_schema` calls `sys.exit(1)` on
any schema load failure (source line 36), before any file is processed;
otherwise `main` calls `sys.exit(1)` iff some result has `valid == False`
(source lines 325–326) and falls off the end (status 0) otherwise. -/
def main_exit_code (schema : SchemaLoadOutcome)
    (results : List ValidationResult) : Nat :=
  match schema with
  | .failure _ => 1
  | .ok => if results.any (fun r => !r.valid) then 1 else 0

/-! ## Summary counts (source lines 169–175, 204–208, 215–216) -/

/-- `sum(1 for r in results if r[valid])` (source lines 171, 206, 215). -/
def valid_count (results : List ValidationResult) : Nat :=
  (results.filter (fun r => r.valid)).length

/-- `sum(1 for r in results if not r[valid])` (source line 207, JSON
renderer only). -/
def not_valid_count (results : List ValidationResult) : Nat :=
  (results.filter (fun r => !r.valid)).length

/-- Summary block shared by the renderers. -/
structure Summary where
  total : Nat
  valid : Nat
  invalid : Nat
deriving DecidableEq, Repr

/-- Summary figures of the text renderer (source lines 169–175):
`invalid_count = len(results) - valid_count`. -/
def text_summary (results : List ValidationResult) : Summary :=
  { total := results.length
    valid := valid_count results
    invalid := results.length - valid_count results }

/-- Summary figures of the JSON renderer (source lines 204–208). -/
def json_summary (results : List ValidationResult) : Summary :=
  { total := results.length
    valid := valid_count results
    invalid := not_valid_count results }

/-- Summary figures of the HTML renderer (source lines 215–216, 238–240):
same computation as the text renderer. -/
def html_summary (results : List ValidationResult) : Summary :=
  { total := results.length
    valid := valid_count results
    invalid := results.length - valid_count results }

/-! ## Error position rendering (source lines 189–196 and 258–264) -/

/-- Python truthiness of `error.get(line)`: the key must be present, hold a
value other than `None`, and that value must be non-zero. -/
def truthyLine (e : ErrorRecord) : Bool :=
  match e.line with
  | some (some n) => n != 0
  | _ => false

/-- Python truthiness of `error.get(column)`. -/
def truthyColumn (e : ErrorRecord) : Bool :=
  match e.column with
  | some n => n != 0
  | none => false

/-- The number rendered for a truthy `line`. -/
def lineNat (e : ErrorRecord) : Nat :=
  match e.line with
  | some (some n) => n
  | _ => 0

/-- The number rendered for a truthy `column`. -/
def colNat (e : ErrorRecord) : Nat :=
  match e.column with
  | some n => n
  | none => 0

/-! ## Text renderer (source lines 162–198) -/

def newline : String := "\n"

def eqBar : String := String.mk (List.replicate 80 '=')

def dashBar : String := String.mk (List.replicate 80 '-')

def errorHeaderLine (i : Nat) : String := "\n  Error #" ++ toString i ++ ":"

def typeLine (e : ErrorRecord) : String := "    Type: " ++ e.type.name

def messageLine (e : ErrorRecord) : String := "    Message: " ++ e.message

def lineLine (e : ErrorRecord) : String := "    Line: " ++ toString (lineNat e)

def columnLine (e : ErrorRecord) : String :=
  "    Column: " ++ toString (colNat e)

/-- The lines appended per error in the text report (source lines 189–196):
the `Line:` line only when `error.get(line)` is truthy, the `Column:` line
only when `error.get(column)` is truthy (independently of the line). -/
def text_error_lines (i : Nat) (e : ErrorRecord) : List String :=
  [errorHeaderLine i, typeLine e, messageLine e]
    ++ (if truthyLine e then [lineLine e] else [])
    ++ (if truthyColumn e then [columnLine e] else [])

/-- `enumerate(result[errors], 1)` over the error list (source line 189). -/
def text_error_section : Nat → List ErrorRecord → List String
  | _, [] => []
  | i, e :: es => text_error_lines i e ++ text_error_section (i + 1) es

/-- The lines appended per result (source lines 179–196). -/
def text_result_section (r : ValidationResult) : List String :=
  ["\nFile: " ++ r.file, dashBar]
    ++ (if r.valid then ["Status: ✓ VALID"]
        else ["Status: ✗ INVALID (" ++ toString r.errors.length ++ " errors)",
              "\nErrors:"] ++ text_error_section 1 r.errors)

/-- The summary header of the text report (source lines 165–177). -/
def text_header (now : String) (results : List ValidationResult) : List String :=
  [eqBar, "CCD VALIDATION REPORT", eqBar,
   "Generated: " ++ now,
   "Total files validated: " ++ toString (text_summary results).total,
   "Valid: " ++ toString (text_summary results).valid,
   "Invalid: " ++ toString (text_summary results).invalid,
   eqBar, ""]

/-- `CCDValidator._generate_text_report` (source lines 162–198):
`"\n".join(lines)`. -/
def generate_text_report (now : String) (results : List ValidationResult) : String :=
  String.intercalate newline
    (text_header now results ++ (results.map text_result_section).flatten)

/-! ## HTML renderer, error-location part (source lines 244–273) -/

/-- The `location` suffix built for each error in the HTML report (source
lines 259–264): empty when `error.get(line)` is falsy; otherwise
` (Line L)` or ` (Line L, Column C)`, the column part only added inside the
truthy-line branch. -/
def html_location (e : ErrorRecord) : String :=
  if truthyLine e then
    " (Line " ++ toString (lineNat e)
      ++ (if truthyColumn e then ", Column " ++ toString (colNat e) else "")
      ++ ")"
  else ""

/-- The per-error block of the HTML report (source lines 266–271). -/
def html_error_block (i : Nat) (e : ErrorRecord) : String :=
  "<div class=\"error\">" ++ newline
    ++ "<p><span class=\"error-type\">Error #" ++ toString i ++ ": "
    ++ e.type.name ++ "</span>" ++ html_location e ++ "</p>" ++ newline
    ++ "<p>" ++ e.message ++ "</p>" ++ newline ++ "</div>"

/-! ## JSON renderer (source lines 200–211)

`json.dumps` is modelled at the level of the JSON value tree it serializes:
the tree determines the emitted text and is recovered verbatim by any JSON
decoder, so losslessness of the rendering is the statement that the tree
decodes back to the original records.  Python dict key order (insertion
order) and key presence are preserved exactly. -/

inductive JsonVal
  | null
  | bool (b : Bool)
  | num (n : Nat)
  | str (s : String)
  | arr (items : List JsonVal)
  | obj (members : List (String × JsonVal))

def typeKey : String := "type"
def messageKey : String := "message"
def lineKey : String := "line"
def columnKey : String := "column"
def domainKey : String := "domain"
def levelKey : String := "level"
def fileKey : String := "file"
def validKey : String := "valid"
def wellFormedKey : String := "well_formed"
def errorsKey : String := "errors"
def timestampKey : String := "timestamp"
def generatedKey : String := "generated"
def summaryKey : String := "summary"
def totalKey : String := "total"
def invalidKey : String := "invalid"
def resultsKey : String := "results"

/-- Members contributed by the `line` field: absent key, `null`, or a
number, exactly as the source dicts carry it. -/
def lineMembers : Option (Option Nat) → List (String × JsonVal)
  | none => []
  | some none => [(lineKey, JsonVal.null)]
  | some (some n) => [(lineKey, JsonVal.num n)]

def colMembers : Option Nat → List (String × JsonVal)
  | none => []
  | some n => [(columnKey, JsonVal.num n)]

def domainMembers : Option String → List (String × JsonVal)
  | none => []
  | some s => [(domainKey, JsonVal.str s)]

def levelMembers : Option String → List (String × JsonVal)
  | none => []
  | some s => [(levelKey, JsonVal.str s)]

/-- Serialization of one error dict, keys in the insertion order of the
source (lines 63–67, 76–83, 86–89, 91–94): `type`, `message`, then whichever
of `line`, `column`, `domain`, `level` the dict holds. -/
def ErrorRecord.toJson (e : ErrorRecord) : JsonVal :=
  JsonVal.obj ([(typeKey, JsonVal.str e.type.name),
                (messageKey, JsonVal.str e.message)]
    ++ lineMembers e.line ++ colMembers e.column
    ++ domainMembers e.domain ++ levelMembers e.level)

/-- Inverse of `ErrType.name`. -/
def typeOfName (s : String) : Option ErrType :=
  if s = "XML_SYNTAX_ERROR" then some ErrType.xmlSyntaxError
  else if s = "SCHEMA_VALIDATION_ERROR" then some ErrType.schemaValidationError
  else if s = "FILE_NOT_FOUND" then some ErrType.fileNotFound
  else if s = "UNEXPECTED_ERROR" then some ErrType.unexpectedError
  else none

/-- Read back an optional leading `line` member. -/
def decodeLine (ms : List (String × JsonVal)) :
    Option (Option (Option Nat) × List (String × JsonVal)) :=
  match ms with
  | (k, v) :: rest =>
      if k = lineKey then
        match v with
        | JsonVal.null => some (some none, rest)
        | JsonVal.num n => some (some (some n), rest)
        | _ => none
      else some (none, ms)
  | [] => some (none, ms)

/-- Read back an optional leading `column` member. -/
def decodeColumn (ms : List (String × JsonVal)) :
    Option (Option Nat × List (String × JsonVal)) :=
  match ms with
  | (k, v) :: rest =>
      if k = columnKey then
        match v with
        | JsonVal.num n => some (some n, rest)
        | _ => none
      else some (none, ms)
  | [] => some (none, ms)

/-- Read back an optional leading `domain` member. -/
def decodeDomain (ms : List (String × JsonVal)) :
    Option (Option String × List (String × JsonVal)) :=
  match ms with
  | (k, v) :: rest =>
      if k = domainKey then
        match v with
        | JsonVal.str s => some (some s, rest)
        | _ => none
      else some (none, ms)
  | [] => some (none, ms)

/-- Read back an optional leading `level` member. -/
def decodeLevel (ms : List (String × JsonVal)) :
    Option (Option String × List (String × JsonVal)) :=
  match ms with
  | (k, v) :: rest =>
      if k = levelKey then
        match v with
        | JsonVal.str s => some (some s, rest)
        | _ => none
      else some (none, ms)
  | [] => some (none, ms)

/-- JSON decoder for one error record. -/
def ErrorRecord.fromJson : JsonVal → Option ErrorRecord
  | JsonVal.obj ((k1, JsonVal.str t) :: (k2, JsonVal.str m) :: rest) =>
      if k1 = typeKey then
        if k2 = messageKey then
          match typeOfName t with
          | some ty =>
              match decodeLine rest with
              | some (l, rest1) =>
                  match decodeColumn rest1 with
                  | some (c, rest2) =>
                      match decodeDomain rest2 with
                      | some (d, rest3) =>
                          match decodeLevel rest3 with
                          | some (lv, []) =>
                              some { type := ty, message := m, line := l,
                                     column := c, domain := d, level := lv }
                          | _ => none
                      | none => none
                  | none => none
              | none => none
          | none => none
        else none
      else none
  | _ => none

/-- Serialization of one result dict, keys in insertion order (source lines
48–54). -/
def ValidationResult.toJson (r : ValidationResult) : JsonVal :=
  JsonVal.obj [(fileKey, JsonVal.str r.file),
               (validKey, JsonVal.bool r.valid),
               (wellFormedKey, JsonVal.bool r.well_formed),
               (errorsKey, JsonVal.arr (r.errors.map ErrorRecord.toJson)),
               (timestampKey, JsonVal.str r.timestamp)]

/-- JSON decoder for a list of error records. -/
def decodeErrorList : List JsonVal → Option (List ErrorRecord)
  | [] => some []
  | j :: js =>
      match ErrorRecord.fromJson j, decodeErrorList js with
      | some e, some es => some (e :: es)
      | _, _ => none

/-- JSON decoder for one validation result. -/
def ValidationResult.fromJson : JsonVal → Option ValidationResult
  | JsonVal.obj [(k1, JsonVal.str f), (k2, JsonVal.bool v),
                 (k3, JsonVal.bool w), (k4, JsonVal.arr es),
                 (k5, JsonVal.str ts)] =>
      if k1 = fileKey then
        if k2 = validKey then
          if k3 = wellFormedKey then
            if k4 = errorsKey then
              if k5 = timestampKey then
                match decodeErrorList es with
                | some l =>
                    some { file := f, valid := v, well_formed := w,
                           errors := l, timestamp := ts }
                | none => none
              else none
            else none
          else none
        else none
      else none
  | _ => none

/-- JSON decoder for a list of validation results. -/
def decodeResultList : List JsonVal → Option (List ValidationResult)
  | [] => some []
  | j :: js =>
      match ValidationResult.fromJson j, decodeResultList js with
      | some r, some rs => some (r :: rs)
      | _, _ => none

/-- `CCDValidator._generate_json_report` (source lines 200–211): the value
tree `json.dumps` serializes — `generated` timestamp, `summary` with
`total`/`valid`/`invalid`, and `results` holding the result dicts
verbatim. -/
def generate_json_report (generated : String)
    (results : List ValidationResult) : JsonVal :=
  JsonVal.obj
    [(generatedKey, JsonVal.str generated),
     (summaryKey, JsonVal.obj
        [(totalKey, JsonVal.num results.length),
         (validKey, JsonVal.num (valid_count results)),
         (invalidKey, JsonVal.num (not_valid_count results))]),
     (resultsKey, JsonVal.arr (results.map ValidationResult.toJson))]

/-- The structured content a JSON decoder recovers from the rendered
report. -/
structure DecodedReport where
  generated : String
  summary : Summary
  results : List ValidationResult
deriving Repr

/-- JSON decoder for the whole report document. -/
def decodeReport : JsonVal → Option DecodedReport
  | JsonVal.obj [(k1, JsonVal.str g),
                 (k2, JsonVal.obj [(t1, JsonVal.num tot),
                                   (t2, JsonVal.num va),
                                   (t3, JsonVal.num inv)]),
                 (k3, JsonVal.arr rs)] =>
      if k1 = generatedKey then
        if k2 = summaryKey then
          if t1 = totalKey then
            if t2 = validKey then
              if t3 = invalidKey then
                if k3 = resultsKey then
                  match decodeResultList rs with
                  | some l =>
                      some { generated := g,
                             summary := { total := tot, valid := va,
                                          invalid := inv },
                             results := l }
                  | none => none
                else none
              else none
            else none
          else none
        else none
      else none
  | _ => none

/-! ## Concrete inputs used by witnesses and counterexamples -/

def missPath : String := "missing.xml"

def tsLit : String := "2026-01-01T00:00:00"

def loadErrMsg : String := "failed to parse schema"

def pathA : String := "a.xml"

def subDirName : String := "sub"

def nameB : String := "b.xml"

def env0 : FSFile → FileOutcome := fun _ => FileOutcome.parsedValid

def fileB : FSFile := { relDirs := [subDirName], name := nameB }

def files0 : List FSFile := [{ relDirs := [], name := pathA }, fileB]

def upperFile : FSFile := { relDirs := [], name := "DOC.XML" }

/-- A schema diagnostic whose position info is all zero, as lxml produces for
document-level diagnostics. -/
def zeroPosError : ErrorRecord :=
  { type := ErrType.schemaValidationError
    message := "missing required element"
    line := some (some 0)
    column := some 0
    domain := some "SCHEMASV"
    level := some "ERROR" }

end CCD

namespace CCD

/-! ## Claim C1 -/

/-- C1 counterexample: a missing file yields a result with
`well_formed = false` whose single error record is a `FILE_NOT_FOUND`, not an
`XML_SYNTAX_ERROR` — the errors contain zero `XML_SYNTAX_ERROR` records, not
exactly one as the claim demands. -/
theorem missing_file_not_syntax_error :
    (validate_file missPath tsLit FileOutcome.fileNotFound).well_formed = false ∧
    ((validate_file missPath tsLit FileOutcome.fileNotFound).errors.countP
        (fun e => decide (e.type = ErrType.xmlSyntaxError))) = 0 ∧
    (validate_file missPath tsLit FileOutcome.fileNotFound).errors.length = 1 :=
  ⟨rfl, rfl, rfl⟩

/-- C1 (amended): for every result returned by `validate_file`, if
`well_formed` is false then `valid` is false and `errors` contains exactly
one record, whose type is `XML_SYNTAX_ERROR`, `FILE_NOT_FOUND`, or
`UNEXPECTED_ERROR`. -/
theorem not_well_formed_single_failure_record (path ts : String)
    (o : FileOutcome) (h : (validate_file path ts o).well_formed = false) :
    (validate_file path ts o).valid = false ∧
    (validate_file path ts o).errors.length = 1 ∧
    ∀ e ∈ (validate_file path ts o).errors,
      e.type = ErrType.xmlSyntaxError ∨ e.type = ErrType.fileNotFound ∨
        e.type = ErrType.unexpectedError := by
  cases o <;>
    simp_all [validate_file, fileNotFoundRecord, syntaxErrorRecord,
              unexpectedErrorRecord]

/-- Witness for the amended C1 at the missing-file outcome. -/
theorem not_well_formed_single_failure_record_witness :
    (validate_file missPath tsLit FileOutcome.fileNotFound).valid = false ∧
    (validate_file missPath tsLit FileOutcome.fileNotFound).errors.length = 1 ∧
    ∀ e ∈ (validate_file missPath tsLit FileOutcome.fileNotFound).errors,
      e.type = ErrType.xmlSyntaxError ∨ e.type = ErrType.fileNotFound ∨
        e.type = ErrType.unexpectedError :=
  not_well_formed_single_failure_record missPath tsLit FileOutcome.fileNotFound
    rfl

/-! ## Claim C2 -/

/-- C2: on a parse syntax error, `validate_file` returns immediately with
`well_formed = false`, `valid = false`, and a single `XML_SYNTAX_ERROR`
record carrying the message and the optional line; schema conformance is
never consulted, so no `SCHEMA_VALIDATION_ERROR` record appears. -/
theorem syntax_error_short_circuit (path ts msg : String)
    (lineno : Option Nat) :
    validate_file path ts (FileOutcome.syntaxError msg lineno) =
      { file := path, valid := false, well_formed := false,
        errors := [syntaxErrorRecord msg lineno], timestamp := ts } ∧
    ((validate_file path ts (FileOutcome.syntaxError msg lineno)).errors.countP
        (fun e => decide (e.type = ErrType.schemaValidationError))) = 0 :=
  ⟨rfl, rfl⟩

/-! ## Claim C3 -/

/-- C3: for every result returned by `validate_file` under a well-behaved
schema engine (a failed validation drains a non-empty `error_log`), `errors`
is empty iff `valid` is true, and `valid = true` implies
`well_formed = true`. -/
theorem errors_empty_iff_valid (path ts : String) (o : FileOutcome)
    (h : envOK o) :
    ((validate_file path ts o).errors = [] ↔
      (validate_file path ts o).valid = true) ∧
    ((validate_file path ts o).valid = true →
      (validate_file path ts o).well_formed = true) := by
  cases o with
  | parsedInvalid log =>
      have hne := h log rfl
      simp [validate_file, hne]
  | _ => simp [validate_file]

/-- Witness for C3 at a successfully validated file. -/
theorem errors_empty_iff_valid_witness :
    ((validate_file pathA tsLit FileOutcome.parsedValid).errors = [] ↔
      (validate_file pathA tsLit FileOutcome.parsedValid).valid = true) ∧
    ((validate_file pathA tsLit FileOutcome.parsedValid).valid = true →
      (validate_file pathA tsLit FileOutcome.parsedValid).well_formed = true) :=
  errors_empty_iff_valid pathA tsLit FileOutcome.parsedValid
    (fun _ hlog => nomatch hlog)

/-! ## Claim C4 -/

/-- C4: `validate_file` is a total function into `ValidationResult` — a
per-file failure is recorded, never propagated: a missing file yields a
complete result with the single `FILE_NOT_FOUND` record, any other
unexpected failure a complete result with the single `UNEXPECTED_ERROR`
record, and `valid` stays false in both. -/
theorem per_file_failures_recorded_not_raised (path ts msg : String) :
    validate_file path ts FileOutcome.fileNotFound =
      { file := path, valid := false, well_formed := false,
        errors := [fileNotFoundRecord path], timestamp := ts } ∧
    validate_file path ts (FileOutcome.unexpected msg) =
      { file := path, valid := false, well_formed := false,
        errors := [unexpectedErrorRecord msg], timestamp := ts } :=
  ⟨rfl, rfl⟩

/-! ## Claim C5 -/

/-- C5 counterexample: the early exit status on a schema load failure is 1,
the very same status returned when a processed file is invalid — it is not a
distinct status. -/
theorem schema_load_exit_status_not_distinct :
    main_exit_code (SchemaLoadOutcome.failure loadErrMsg) [] = 1 ∧
    main_exit_code SchemaLoadOutcome.ok
      [validate_file missPath tsLit FileOutcome.fileNotFound] = 1 :=
  ⟨rfl, rfl⟩

/-- C5 (amended): the exit status is 0 iff every processed file is valid
(vacuously 0 for zero files), 1 iff some processed file is not valid, and an
early exit with the nonzero status 1 — the same code as a validation
failure — when the schema itself fails to load. -/
theorem main_exit_code_cases (results : List ValidationResult) (msg : String) :
    main_exit_code (SchemaLoadOutcome.failure msg) results = 1 ∧
    main_exit_code SchemaLoadOutcome.ok [] = 0 ∧
    (main_exit_code SchemaLoadOutcome.ok results = 0 ↔
      ∀ r ∈ results, r.valid = true) ∧
    (main_exit_code SchemaLoadOutcome.ok results = 1 ↔
      ∃ r ∈ results, r.valid = false) := by
  refine ⟨rfl, rfl, ?_, ?_⟩ <;> simp [main_exit_code]

/-- Witness for the amended C5 at a one-valid-file run. -/
theorem main_exit_code_cases_witness :
    main_exit_code (SchemaLoadOutcome.failure loadErrMsg)
        [validate_file pathA tsLit FileOutcome.parsedValid] = 1 ∧
    main_exit_code SchemaLoadOutcome.ok [] = 0 ∧
    (main_exit_code SchemaLoadOutcome.ok
        [validate_file pathA tsLit FileOutcome.parsedValid] = 0 ↔
      ∀ r ∈ [validate_file pathA tsLit FileOutcome.parsedValid],
        r.valid = true) ∧
    (main_exit_code SchemaLoadOutcome.ok
        [validate_file pathA tsLit FileOutcome.parsedValid] = 1 ↔
      ∃ r ∈ [validate_file pathA tsLit FileOutcome.parsedValid],
        r.valid = false) :=
  main_exit_code_cases [validate_file pathA tsLit FileOutcome.parsedValid]
    loadErrMsg

/-! ## Claim C6 -/

theorem valid_count_le_length (results : List ValidationResult) :
    valid_count results ≤ results.length :=
  List.length_filter_le _ _

theorem valid_count_add_not_valid_count (results : List ValidationResult) :
    valid_count results + not_valid_count results = results.length := by
  induction results with
  | nil => rfl
  | cons r rs ih =>
      cases hr : r.valid <;>
        simp [valid_count, not_valid_count, List.filter, hr] at ih ⊢ <;>
        omega

/-- C6: in each of the three renderers the summary counts satisfy
`total = valid + invalid`, where `total` is the length of the result list
and `valid` the number of results with `valid = true`. -/
theorem summary_total_eq_valid_add_invalid (results : List ValidationResult) :
    (text_summary results).total =
      (text_summary results).valid + (text_summary results).invalid ∧
    (json_summary results).total =
      (json_summary results).valid + (json_summary results).invalid ∧
    (html_summary results).total =
      (html_summary results).valid + (html_summary results).invalid := by
  have h1 := valid_count_le_length results
  have h2 := valid_count_add_not_valid_count results
  refine ⟨?_, ?_, ?_⟩ <;> simp [text_summary, json_summary, html_summary] <;>
    omega

/-! ## Claim C7 -/

theorem errorRecord_roundtrip (e : ErrorRecord) :
    ErrorRecord.fromJson e.toJson = some e := by
  obtain ⟨ty, m, l, c, d, lv⟩ := e
  cases ty <;> rcases l with _ | _ | n <;> rcases c with _ | cn <;>
    rcases d with _ | ds <;> rcases lv with _ | ls <;> rfl

theorem decodeErrorList_roundtrip (l : List ErrorRecord) :
    decodeErrorList (l.map ErrorRecord.toJson) = some l := by
  induction l with
  | nil => rfl
  | cons e es ih =>
      simp [List.map_cons, decodeErrorList, errorRecord_roundtrip, ih]

theorem result_roundtrip (r : ValidationResult) :
    ValidationResult.fromJson r.toJson = some r := by
  obtain ⟨f, v, w, errs, ts⟩ := r
  simp [ValidationResult.toJson, ValidationResult.fromJson,
        decodeErrorList_roundtrip]

theorem decodeResultList_roundtrip (l : List ValidationResult) :
    decodeResultList (l.map ValidationResult.toJson) = some l := by
  induction l with
  | nil => rfl
  | cons r rs ih =>
      simp [List.map_cons, decodeResultList, result_roundtrip, ih]

/-- C7: the JSON report is a lossless structured encoding of the result
sequence: decoding the rendered report recovers the `generated` timestamp,
the original results verbatim under the `results` key, and summary counts
equal to the counts computed directly from the result list. -/
theorem json_report_lossless (generated : String)
    (results : List ValidationResult) :
    decodeReport (generate_json_report generated results) =
      some { generated := generated
             summary := { total := results.length
                          valid := valid_count results
                          invalid := not_valid_count results }
             results := results } := by
  simp [generate_json_report, decodeReport, decodeResultList_roundtrip]

/-! ## Claim C8 -/

/-- C8: with `recursive = false`, `validate_directory` produces results only
for `.xml` files directly under the directory (never from a subdirectory);
with `recursive = true` every `.xml` file at any depth gets a result. -/
theorem validate_directory_traversal (files : List FSFile)
    (env : FSFile → FileOutcome) (ts : String) :
    (∀ r ∈ validate_directory files false env ts,
       ∃ f, f ∈ files ∧ f.relDirs = [] ∧ nameEndsWithXml f.name = true ∧
         r = validate_file (pathString f) ts (env f)) ∧
    (∀ f ∈ files, nameEndsWithXml f.name = true →
       validate_file (pathString f) ts (env f) ∈
         validate_directory files true env ts) := by
  constructor
  · intro r hr
    simp [validate_directory, glob_xml, globMatches, List.mem_map,
          List.mem_filter] at hr
    obtain ⟨f, ⟨hf, hdirs, hext⟩, hrw⟩ := hr
    exact ⟨f, hf, by simpa using hdirs, hext, hrw.symm⟩
  · intro f hf hext
    simp [validate_directory, glob_xml, globMatches, List.mem_map,
          List.mem_filter]
    exact ⟨f, ⟨hf, hext⟩, rfl⟩

/-- Witness for C8: a file inside a subdirectory is validated on a recursive
run. -/
theorem validate_directory_traversal_witness :
    validate_file (pathString fileB) tsLit (env0 fileB) ∈
      validate_directory files0 true env0 tsLit :=
  (validate_directory_traversal files0 env0 tsLit).2 fileB (by decide)
    (by decide)

/-! ## Claim C9 -/

/-- C9: the glob pattern selects exactly the files whose name ends in the
literal lowercase `.xml`; any other spelling of the extension is silently
skipped. -/
theorem glob_selects_exact_lowercase_xml (files : List FSFile)
    (recursive : Bool) :
    (∀ f ∈ glob_xml files recursive, nameEndsWithXml f.name = true) ∧
    (∀ f, nameEndsWithXml f.name = false →
       f ∉ glob_xml files recursive) := by
  constructor
  · intro f hf
    simp [glob_xml, globMatches, List.mem_filter] at hf
    exact hf.2.2
  · intro f hext hf
    simp [glob_xml, globMatches, List.mem_filter] at hf
    simp [hf.2.2] at hext

/-- Witness for C9: a file named with the uppercase extension `.XML` is not
selected. -/
theorem glob_selects_exact_lowercase_xml_witness :
    upperFile ∉ glob_xml [upperFile] false :=
  (glob_selects_exact_lowercase_xml [upperFile] false).2 upperFile (by decide)

/-! ## Claim C10 -/

/-- C10: a position component equal to 0 is falsy in Python and therefore
omitted from both renderers even though the field is present; in the text
renderer line and column are tested independently, while in the HTML
renderer the whole location suffix — column included — is dropped whenever
the line is not shown. -/
theorem error_position_rendering (e : ErrorRecord) (i : Nat) :
    (e.line = some (some 0) → truthyLine e = false) ∧
    (e.column = some 0 → truthyColumn e = false) ∧
    (truthyLine e = false →
       text_error_lines i e =
         [errorHeaderLine i, typeLine e, messageLine e]
           ++ (if truthyColumn e then [columnLine e] else []) ∧
       html_location e = "") ∧
    (truthyColumn e = false →
       text_error_lines i e =
         [errorHeaderLine i, typeLine e, messageLine e]
           ++ (if truthyLine e then [lineLine e] else []) ∧
       (truthyLine e = true →
         html_location e = " (Line " ++ toString (lineNat e) ++ ")")) := by
  refine ⟨?_, ?_, ?_, ?_⟩
  · intro h
    simp [truthyLine, h]
  · intro h
    simp [truthyColumn, h]
  · intro h
    simp [text_error_lines, html_location, h]
  · intro h
    constructor
    · simp [text_error_lines, h]
    · intro hl
      simp [html_location, h, hl]

/-- Witness for C10 at a schema diagnostic whose line and column are both
present and both 0: neither position component is rendered. -/
theorem error_position_rendering_witness :
    text_error_lines 1 zeroPosError =
      [errorHeaderLine 1, typeLine zeroPosError, messageLine zeroPosError]
        ++ (if truthyColumn zeroPosError then [columnLine zeroPosError]
            else []) ∧
    html_location zeroPosError = "" :=
  (error_position_rendering zeroPosError 1).2.2.1 (by decide)

end CCD
